import Mathlib

/-!
Verification of the surgical-compliance analysis layer of the
treehacks-2026 repository against its specification.

The data model is embedded from `Analytics_UI/src/lib/types.ts` and
`ScitePipeline/sql/runtime_schema.sql`; the operations are embedded from
the dashboard components (`timeline-tab.tsx`, `graph-tab.tsx`,
`deviations-tab.tsx`, `utils.ts`) and the seed data from
`SOP/appendectomy_data/supabase_seed_appendectomy.sql`.  Numbers that the
source handles as JS floats are modelled as rationals (`ℚ`).
-/

/-- Edge kind, from the union type `"sequential" | "conditional"` in
`lib/types.ts` (`ProcedureEdge.type`). -/
inductive EdgeType where
  | sequential
  | conditional
deriving DecidableEq, Repr

/-- `ProcedureNode` from `lib/types.ts` (`procedure_id` is constant per
graph and carried verbatim from the seed data). -/
structure ProcedureNode where
  id : String
  procedure_id : String
  name : String
  phase : String
  mandatory : Bool
  optional : Bool
  safety_critical : Bool
  actors : List String
  required_tools : List String
  preconditions : List String
deriving DecidableEq, Repr

/-- `ProcedureEdge` from `lib/types.ts`. -/
structure ProcedureEdge where
  procedure_id : String
  from_node : String
  to_node : String
  type : EdgeType
deriving DecidableEq, Repr

/-- `ObservedEvent` from `lib/types.ts` / the `observed_events` table of
`runtime_schema.sql`: the fields the analysis reads (`node_id`,
`timestamp`, `confidence`); display metadata is not modelled. -/
structure ObservedEvent where
  id : Nat
  procedure_run_id : String
  node_id : String
  timestamp : ℚ
  confidence : ℚ
deriving DecidableEq, Repr

/-- `ParsedSnippet` from `lib/types.ts`, as produced by
`parseEvidenceSummary` in `lib/utils.ts`. -/
structure ParsedSnippet where
  text : String
  confidence : ℚ
  source : String
  doi : String
deriving DecidableEq, Repr

/-- Snippet construction from `parseEvidenceSummary` (`utils.ts` lines
259–265): the confidence is `parseInt(match[1]) / 100` for a digit
string, hence of the form `p / 100` with `p : ℕ`. -/
def mkParsedSnippet (percent : Nat) (text source doi : String) : ParsedSnippet :=
  { text := text
    confidence := (percent : ℚ) / 100
    source := source
    doi := doi }

/-- `missingNodes` from `timeline-tab.tsx` (part_006 lines 52–55, same in
part_007 lines 36–39): `observed = new Set(events.map(e => e.node_id));
nodes.filter(n => n.mandatory && !observed.has(n.id))`. -/
def missingNodes (events : List ObservedEvent) (nodes : List ProcedureNode) :
    List ProcedureNode :=
  let observed := events.map (·.node_id)
  nodes.filter (fun n => n.mandatory && !(observed.contains n.id))

/-- Risk-weight reduction from `DeviationCard` in `deviations-tab.tsx`
(part_011 lines 50–51): `snips.reduce((s, sn) => s + sn.confidence, 0)`. -/
def confidenceSum (snips : List ParsedSnippet) : ℚ :=
  snips.foldl (fun s sn => s + sn.confidence) 0

/-- `riskRatio` from `DeviationCard` in `deviations-tab.tsx` (part_011
lines 48–52): if any snippet was parsed, the ratio of the risk-confidence
sum to the total confidence sum, else `0.5`. -/
def riskRatio (riskSnippets safeSnippets : List ParsedSnippet) : ℚ :=
  let totalSnippets := riskSnippets.length + safeSnippets.length
  if totalSnippets > 0 then
    confidenceSum riskSnippets /
      (confidenceSum riskSnippets + confidenceSum safeSnippets)
  else 1 / 2

/-- Children of a node along sequential edges, from `GraphTab`
(`graph-tab.tsx` lines 28–39): conditional edges are skipped. -/
def seqChildren (edges : List ProcedureEdge) (nid : String) : List String :=
  (edges.filter (fun e => e.type == EdgeType.sequential && e.from_node == nid)).map
    (·.to_node)

/-- Initial sequential in-degree table, from `GraphTab` lines 29–39. -/
def seqInDeg (nodes : List ProcedureNode) (edges : List ProcedureEdge) :
    List (String × Nat) :=
  nodes.map (fun n =>
    (n.id, (edges.filter
      (fun e => e.type == EdgeType.sequential && e.to_node == n.id)).length))

/-- Lookup in the in-degree table; an absent key reads as `none`,
matching a JS `Map.get` returning `undefined`. -/
def degLookup (m : List (String × Nat)) (k : String) : Option Nat :=
  (m.find? (fun p => p.1 == k)).map (·.2)

/-- Store into the in-degree table (`inDeg.set(child, newDeg)` in
`graph-tab.tsx` line 51): updates an existing key, inserts a missing one. -/
def degSet (m : List (String × Nat)) (k : String) (v : Nat) :
    List (String × Nat) :=
  if m.any (fun p => p.1 == k) then
    m.map (fun p => if p.1 == k then (k, v) else p)
  else m ++ [(k, v)]

/-- The decremented degree `(inDeg.get(child) || 1) - 1` of `graph-tab.tsx`
line 50: a missing or zero entry reads as `1`. -/
def newDegOf (m : List (String × Nat)) (k : String) : Nat :=
  (match degLookup m k with
   | some d => if d == 0 then 1 else d
   | none => 1) - 1

/-- One pass over the current queue of the layered traversal in `GraphTab`
(lines 44–56): marks the queue visited, decrements each sequential child,
and collects the children that reach in-degree zero and are unvisited. -/
def bfsProcess (children : String → List String) :
    List String → List String → List (String × Nat) →
    (List String × List String × List (String × Nat))
  | [], visited, inDeg => ([], visited, inDeg)
  | nid :: rest, visited, inDeg =>
    let visited1 := visited ++ [nid]
    let step := (children nid).foldl
      (fun (acc : List String × List (String × Nat)) child =>
        let nd := newDegOf acc.2 child
        let m1 := degSet acc.2 child nd
        if nd == 0 && !(visited1.contains child) then
          (acc.1 ++ [child], m1)
        else (acc.1, m1))
      ([], inDeg)
    let (next, visited2, inDeg2) := bfsProcess children rest visited1 step.2
    (step.1 ++ next, visited2, inDeg2)

/-- The while-loop of `GraphTab` lines 44–56, with explicit fuel (the loop
runs at most once per node, so `nodes.length + 1` rounds suffice). -/
def bfsLoop (children : String → List String) :
    Nat → List String → List String → List (String × Nat) →
    (List (List String) × List String)
  | 0, _, visited, _ => ([], visited)
  | _ + 1, [], visited, _ => ([], visited)
  | fuel + 1, queue, visited, inDeg =>
    let (next, visited1, inDeg1) := bfsProcess children queue visited inDeg
    let (layers, visited2) := bfsLoop children fuel next visited1 inDeg1
    (queue :: layers, visited2)

/-- The layered breadth-first traversal of `GraphTab` (lines 27–58): the
set of node ids visited by repeatedly removing zero-in-degree nodes over
sequential edges. -/
def bfsVisited (nodes : List ProcedureNode) (edges : List ProcedureEdge) :
    List String :=
  let inDeg := seqInDeg nodes edges
  let queue := (nodes.filter
    (fun n => (degLookup inDeg n.id).getD 0 == 0)).map (·.id)
  (bfsLoop (seqChildren edges) (nodes.length + 1) queue [] inDeg).2

/-- Acyclicity of the sequential subgraph, stated as a checkable
topological-order certificate: the order lists exactly the graph's node
ids and every sequential edge goes strictly forward in it. -/
def isSeqTopoOrder (nodes : List ProcedureNode) (edges : List ProcedureEdge)
    (ord : List String) : Bool :=
  (ord.length == nodes.length) &&
  nodes.all (fun n => ord.contains n.id) &&
  edges.all (fun e =>
    e.type != EdgeType.sequential ||
      decide (ord.indexOf e.from_node < ord.indexOf e.to_node))

/-- The sequential subgraph is a DAG: some topological order exists. -/
def SeqAcyclic (nodes : List ProcedureNode) (edges : List ProcedureEdge) :
    Prop :=
  ∃ ord : List String, isSeqTopoOrder nodes edges ord = true

/-- A node with no incoming sequential edge (an entry point). -/
def seqEntry (edges : List ProcedureEdge) (n : ProcedureNode) : Bool :=
  edges.all (fun e => e.type != EdgeType.sequential || e.to_node != n.id)

/-- Deviation kind, from the closed union in `lib/types.ts`
(`AdjudicatedDeviation.deviation_type`). -/
inductive DevKind where
  | missing
  | out_of_order
  | skipped_safety
  | unhandled_complication
deriving DecidableEq, Repr

/-- Verdict, from the closed union in `lib/types.ts`
(`AdjudicatedDeviation.verdict`). -/
inductive Verdict where
  | confirmed
  | mitigated
  | context_dependent
deriving DecidableEq, Repr

/-- `AdjudicatedDeviation` from `lib/types.ts`, restricted to the fields
the report compiler aggregates. -/
structure AdjudicatedDeviation where
  node_id : String
  deviation_type : DevKind
  verdict : Verdict
deriving DecidableEq, Repr

/-- `totalExpected` of the report: the count of mandatory steps in the
graph (spec §4.4; stored as `deviation_reports.total_expected`). -/
def totalExpected (nodes : List ProcedureNode) : Nat :=
  (nodes.filter (·.mandatory)).length

/-- `totalObserved` of the report: the count of distinct mandatory steps
with at least one observation (spec §4.4; stored as
`deviation_reports.total_observed`). -/
def totalObserved (nodes : List ProcedureNode) (events : List ObservedEvent) :
    Nat :=
  (nodes.filter
    (fun n => n.mandatory && (events.map (·.node_id)).contains n.id)).length

/-- Clamp to the unit interval. -/
def clamp01 (q : ℚ) : ℚ := max 0 (min 1 q)

/-- Count of deviations adjudicated `confirmed`. -/
def confirmedCount (devs : List AdjudicatedDeviation) : Nat :=
  (devs.filter (fun d => d.verdict == Verdict.confirmed)).length

/-- Count of deviations of kind `skipped_safety`. -/
def skippedSafetyCount (devs : List AdjudicatedDeviation) : Nat :=
  (devs.filter (fun d => d.deviation_type == DevKind.skipped_safety)).length

/-- Modelled from the spec: the compliance score of `report.py` (absent
from the sources; only its SQL schema and README are present).  Spec
§4.4: `complianceScore = totalObserved / totalExpected`, clamped to
`[0,1]`, reduced further by a configurable per-confirmed-deviation and
per-skipped-safety penalty (`cw`, `sw`). -/
def complianceScore (cw sw : ℚ) (nodes : List ProcedureNode)
    (events : List ObservedEvent) (devs : List AdjudicatedDeviation) : ℚ :=
  clamp01 ((totalObserved nodes events : ℚ) / (totalExpected nodes : ℚ) -
    cw * (confirmedCount devs : ℚ) - sw * (skippedSafetyCount devs : ℚ))

/-- One row of the `deviation_reports` table (`runtime_schema.sql` lines
47–61), restricted to the key and the fields the claims read. -/
structure ReportRow where
  procedure_run_id : String
  compliance_score : ℚ
deriving DecidableEq, Repr

/-- Number of report rows stored for one run id. -/
def reportCount (table : List ReportRow) (runId : String) : Nat :=
  (table.filter (fun r => r.procedure_run_id == runId)).length

/-- Modelled from the spec: storing a report (`main.py` / `report.py`,
absent from the sources).  Spec §5/§7: re-running analysis for a run that
already has a report is an idempotent overwrite keyed by run id, never an
append — the behaviour the `UNIQUE (procedure_run_id)` constraint of
`runtime_schema.sql` line 60 forces on any writer. -/
def saveReport (table : List ReportRow) (r : ReportRow) : List ReportRow :=
  if table.any (fun row => row.procedure_run_id == r.procedure_run_id) then
    table.map (fun row =>
      if row.procedure_run_id == r.procedure_run_id then r else row)
  else table ++ [r]

/-- Row acceptance for `observed_events` per `runtime_schema.sql` lines
28–37: the `CHECK (confidence >= 0 AND confidence <= 1)` constraint
(`node_id` is only `NOT NULL`, which every modelled string satisfies). -/
def eventRowValid (e : ObservedEvent) : Bool :=
  decide (0 ≤ e.confidence) && decide (e.confidence ≤ 1)

/-- Modelled from the spec: ingestion of a batch of events into a run's
event log (the writer, `video_interpreter.py` / `main.py`, is absent from
the sources).  Spec §7 `EventMalformed`: an offending event is dropped and
analysis proceeds with the remainder; a stored row must pass the schema's
`CHECK` constraint. -/
def insertEvents (log incoming : List ObservedEvent) : List ObservedEvent :=
  log ++ incoming.filter eventRowValid

/-- Node rows of the `laparoscopic_appendectomy` seed
(`supabase_seed_appendectomy.sql` lines 31–220), in file order. -/
def lapAppendNodes : List ProcedureNode :=
  [ { id := "who_sign_in", procedure_id := "laparoscopic_appendectomy",
      name := "WHO Sign In", phase := "checklist",
      mandatory := true, optional := false, safety_critical := true,
      actors := ["anesthesiologist", "nurse", "surgeon"],
      required_tools := ["who_checklist"], preconditions := [] },
    { id := "general_anesthesia", procedure_id := "laparoscopic_appendectomy",
      name := "Induction of General Anesthesia", phase := "setup",
      mandatory := true, optional := false, safety_critical := false,
      actors := ["anesthesiologist"],
      required_tools := ["anesthesia_machine", "endotracheal_tube", "iv_access"],
      preconditions := ["who_sign_in"] },
    { id := "patient_positioning", procedure_id := "laparoscopic_appendectomy",
      name := "Patient Positioning (Supine, Left Arm Tucked)", phase := "setup",
      mandatory := true, optional := false, safety_critical := false,
      actors := ["surgeon", "nurse"],
      required_tools := ["operating_table"],
      preconditions := ["general_anesthesia"] },
    { id := "antibiotic_prophylaxis", procedure_id := "laparoscopic_appendectomy",
      name := "Antibiotic Prophylaxis", phase := "setup",
      mandatory := true, optional := false, safety_critical := true,
      actors := ["anesthesiologist"],
      required_tools := ["iv_antibiotics"],
      preconditions := ["patient_positioning"] },
    { id := "who_time_out", procedure_id := "laparoscopic_appendectomy",
      name := "WHO Time Out", phase := "checklist",
      mandatory := true, optional := false, safety_critical := true,
      actors := ["surgeon", "anesthesiologist", "nurse"],
      required_tools := ["who_checklist"],
      preconditions := ["antibiotic_prophylaxis"] },
    { id := "establish_pneumoperitoneum", procedure_id := "laparoscopic_appendectomy",
      name := "Establish Pneumoperitoneum", phase := "setup",
      mandatory := true, optional := false, safety_critical := false,
      actors := ["surgeon"],
      required_tools := ["veress_needle", "co2_insufflator"],
      preconditions := ["who_time_out"] },
    { id := "trocar_placement", procedure_id := "laparoscopic_appendectomy",
      name := "Trocar Placement (3-Port Technique)", phase := "setup",
      mandatory := true, optional := false, safety_critical := false,
      actors := ["surgeon", "assistant"],
      required_tools := ["trocar_12mm", "trocars_5mm", "laparoscope"],
      preconditions := ["establish_pneumoperitoneum"] },
    { id := "diagnostic_laparoscopy", procedure_id := "laparoscopic_appendectomy",
      name := "Diagnostic Laparoscopy and Abdominal Survey", phase := "exposure",
      mandatory := true, optional := false, safety_critical := false,
      actors := ["surgeon"],
      required_tools := ["laparoscope", "camera"],
      preconditions := ["trocar_placement"] },
    { id := "appendix_identification", procedure_id := "laparoscopic_appendectomy",
      name := "Identification and Mobilization of Appendix", phase := "exposure",
      mandatory := true, optional := false, safety_critical := true,
      actors := ["surgeon", "assistant"],
      required_tools := ["grasper", "dissector"],
      preconditions := ["diagnostic_laparoscopy"] },
    { id := "mesoappendix_dissection", procedure_id := "laparoscopic_appendectomy",
      name := "Mesoappendix Dissection", phase := "exposure",
      mandatory := true, optional := false, safety_critical := true,
      actors := ["surgeon"],
      required_tools := ["bipolar_cautery", "dissector", "ultrasonic_scalpel"],
      preconditions := ["appendix_identification"] },
    { id := "mesoappendix_vessel_ligation", procedure_id := "laparoscopic_appendectomy",
      name := "Mesoappendix Vessel Ligation", phase := "division",
      mandatory := true, optional := false, safety_critical := true,
      actors := ["surgeon"],
      required_tools := ["bipolar_cautery", "clip_applier", "ultrasonic_scalpel"],
      preconditions := ["mesoappendix_dissection"] },
    { id := "appendix_base_ligation", procedure_id := "laparoscopic_appendectomy",
      name := "Appendix Base Ligation (Endoloop or Stapler)", phase := "division",
      mandatory := true, optional := false, safety_critical := true,
      actors := ["surgeon"],
      required_tools := ["endoloop", "endoscopic_stapler"],
      preconditions := ["mesoappendix_vessel_ligation"] },
    { id := "appendix_transection", procedure_id := "laparoscopic_appendectomy",
      name := "Appendix Transection", phase := "division",
      mandatory := true, optional := false, safety_critical := true,
      actors := ["surgeon"],
      required_tools := ["laparoscopic_scissors", "endoscopic_stapler"],
      preconditions := ["appendix_base_ligation"] },
    { id := "specimen_retrieval", procedure_id := "laparoscopic_appendectomy",
      name := "Specimen Retrieval in Bag", phase := "removal",
      mandatory := true, optional := false, safety_critical := false,
      actors := ["surgeon"],
      required_tools := ["retrieval_bag"],
      preconditions := ["appendix_transection"] },
    { id := "hemostasis_and_stump_check", procedure_id := "laparoscopic_appendectomy",
      name := "Hemostasis and Appendiceal Stump Integrity Check", phase := "safety",
      mandatory := true, optional := false, safety_critical := true,
      actors := ["surgeon"],
      required_tools := ["laparoscope", "irrigation_suction"],
      preconditions := ["specimen_retrieval"] },
    { id := "irrigation", procedure_id := "laparoscopic_appendectomy",
      name := "Peritoneal Irrigation (if Contamination Present)", phase := "safety",
      mandatory := false, optional := true, safety_critical := false,
      actors := ["surgeon"],
      required_tools := ["irrigation_suction", "warm_saline"],
      preconditions := ["hemostasis_and_stump_check"] },
    { id := "desufflation", procedure_id := "laparoscopic_appendectomy",
      name := "Desufflation and Trocar Removal", phase := "closure",
      mandatory := true, optional := false, safety_critical := false,
      actors := ["surgeon"],
      required_tools := ["trocar_12mm", "trocars_5mm"],
      preconditions := ["hemostasis_and_stump_check"] },
    { id := "port_site_closure", procedure_id := "laparoscopic_appendectomy",
      name := "Port Site Closure", phase := "closure",
      mandatory := true, optional := false, safety_critical := false,
      actors := ["surgeon"],
      required_tools := ["sutures", "skin_closure_device"],
      preconditions := ["desufflation"] },
    { id := "who_sign_out", procedure_id := "laparoscopic_appendectomy",
      name := "WHO Sign Out", phase := "checklist",
      mandatory := true, optional := false, safety_critical := true,
      actors := ["surgeon", "anesthesiologist", "nurse"],
      required_tools := ["who_checklist"],
      preconditions := ["port_site_closure"] },
    { id := "bleeding_control", procedure_id := "laparoscopic_appendectomy",
      name := "Bleeding Control (Mesoappendix or Stump)", phase := "complication",
      mandatory := false, optional := true, safety_critical := true,
      actors := ["surgeon"],
      required_tools := ["clip_applier", "cautery", "irrigation_suction", "sutures"],
      preconditions := ["mesoappendix_dissection"] },
    { id := "conversion_to_open", procedure_id := "laparoscopic_appendectomy",
      name := "Conversion to Open Appendectomy", phase := "complication",
      mandatory := false, optional := true, safety_critical := true,
      actors := ["surgeon", "assistant", "nurse"],
      required_tools := ["open_surgery_tray", "retractors", "sutures"],
      preconditions := ["bleeding_control"] } ]

/-- Edge rows of the `laparoscopic_appendectomy` seed
(`supabase_seed_appendectomy.sql` lines 226–254), in file order. -/
def lapAppendEdges : List ProcedureEdge :=
  [ { procedure_id := "laparoscopic_appendectomy", from_node := "who_sign_in",
      to_node := "general_anesthesia", type := EdgeType.sequential },
    { procedure_id := "laparoscopic_appendectomy", from_node := "general_anesthesia",
      to_node := "patient_positioning", type := EdgeType.sequential },
    { procedure_id := "laparoscopic_appendectomy", from_node := "patient_positioning",
      to_node := "antibiotic_prophylaxis", type := EdgeType.sequential },
    { procedure_id := "laparoscopic_appendectomy", from_node := "antibiotic_prophylaxis",
      to_node := "who_time_out", type := EdgeType.sequential },
    { procedure_id := "laparoscopic_appendectomy", from_node := "who_time_out",
      to_node := "establish_pneumoperitoneum", type := EdgeType.sequential },
    { procedure_id := "laparoscopic_appendectomy", from_node := "establish_pneumoperitoneum",
      to_node := "trocar_placement", type := EdgeType.sequential },
    { procedure_id := "laparoscopic_appendectomy", from_node := "trocar_placement",
      to_node := "diagnostic_laparoscopy", type := EdgeType.sequential },
    { procedure_id := "laparoscopic_appendectomy", from_node := "diagnostic_laparoscopy",
      to_node := "appendix_identification", type := EdgeType.sequential },
    { procedure_id := "laparoscopic_appendectomy", from_node := "appendix_identification",
      to_node := "mesoappendix_dissection", type := EdgeType.sequential },
    { procedure_id := "laparoscopic_appendectomy", from_node := "mesoappendix_dissection",
      to_node := "mesoappendix_vessel_ligation", type := EdgeType.sequential },
    { procedure_id := "laparoscopic_appendectomy", from_node := "mesoappendix_vessel_ligation",
      to_node := "appendix_base_ligation", type := EdgeType.sequential },
    { procedure_id := "laparoscopic_appendectomy", from_node := "appendix_base_ligation",
      to_node := "appendix_transection", type := EdgeType.sequential },
    { procedure_id := "laparoscopic_appendectomy", from_node := "appendix_transection",
      to_node := "specimen_retrieval", type := EdgeType.sequential },
    { procedure_id := "laparoscopic_appendectomy", from_node := "specimen_retrieval",
      to_node := "hemostasis_and_stump_check", type := EdgeType.sequential },
    { procedure_id := "laparoscopic_appendectomy", from_node := "hemostasis_and_stump_check",
      to_node := "irrigation", type := EdgeType.conditional },
    { procedure_id := "laparoscopic_appendectomy", from_node := "hemostasis_and_stump_check",
      to_node := "desufflation", type := EdgeType.sequential },
    { procedure_id := "laparoscopic_appendectomy", from_node := "irrigation",
      to_node := "desufflation", type := EdgeType.sequential },
    { procedure_id := "laparoscopic_appendectomy", from_node := "desufflation",
      to_node := "port_site_closure", type := EdgeType.sequential },
    { procedure_id := "laparoscopic_appendectomy", from_node := "port_site_closure",
      to_node := "who_sign_out", type := EdgeType.sequential },
    { procedure_id := "laparoscopic_appendectomy", from_node := "mesoappendix_dissection",
      to_node := "bleeding_control", type := EdgeType.conditional },
    { procedure_id := "laparoscopic_appendectomy", from_node := "appendix_transection",
      to_node := "bleeding_control", type := EdgeType.conditional },
    { procedure_id := "laparoscopic_appendectomy", from_node := "bleeding_control",
      to_node := "conversion_to_open", type := EdgeType.conditional },
    { procedure_id := "laparoscopic_appendectomy", from_node := "bleeding_control",
      to_node := "hemostasis_and_stump_check", type := EdgeType.conditional },
    { procedure_id := "laparoscopic_appendectomy", from_node := "conversion_to_open",
      to_node := "hemostasis_and_stump_check", type := EdgeType.sequential } ]

/-- Node rows of the `incision_drainage_abscess` seed
(`supabase_seed_appendectomy.sql` lines 285–429), in file order. -/
def abscessNodes : List ProcedureNode :=
  [ { id := "patient_identification", procedure_id := "incision_drainage_abscess",
      name := "Patient Identification and Consent", phase := "checklist",
      mandatory := true, optional := false, safety_critical := true,
      actors := ["physician", "nurse"],
      required_tools := ["consent_form", "patient_wristband"],
      preconditions := [] },
    { id := "allergy_check", procedure_id := "incision_drainage_abscess",
      name := "Allergy Check (Anesthetic and Antibiotic Allergies)",
      phase := "checklist",
      mandatory := true, optional := false, safety_critical := true,
      actors := ["physician", "nurse"],
      required_tools := ["patient_chart"],
      preconditions := ["patient_identification"] },
    { id := "equipment_preparation", procedure_id := "incision_drainage_abscess",
      name := "Equipment and Supplies Preparation", phase := "setup",
      mandatory := true, optional := false, safety_critical := false,
      actors := ["nurse"],
      required_tools := ["sterile_tray", "scalpel_11_blade", "hemostats",
        "packing_gauze", "irrigation_syringe", "wound_culture_swab",
        "local_anesthetic", "syringe_needle", "sterile_gloves", "drape"],
      preconditions := ["allergy_check"] },
    { id := "site_marking", procedure_id := "incision_drainage_abscess",
      name := "Site Identification and Marking", phase := "checklist",
      mandatory := true, optional := false, safety_critical := true,
      actors := ["physician"],
      required_tools := ["skin_marker"],
      preconditions := ["equipment_preparation"] },
    { id := "sterile_preparation", procedure_id := "incision_drainage_abscess",
      name := "Sterile Skin Preparation", phase := "setup",
      mandatory := true, optional := false, safety_critical := true,
      actors := ["physician"],
      required_tools := ["chlorhexidine_or_betadine", "sterile_drape",
        "sterile_gloves"],
      preconditions := ["site_marking"] },
    { id := "local_anesthesia", procedure_id := "incision_drainage_abscess",
      name := "Local Anesthesia Administration", phase := "setup",
      mandatory := true, optional := false, safety_critical := false,
      actors := ["physician"],
      required_tools := ["lidocaine_with_epinephrine", "syringe", "needle_25g"],
      preconditions := ["sterile_preparation"] },
    { id := "incision", procedure_id := "incision_drainage_abscess",
      name := "Incision Over Abscess (Along Skin Lines)", phase := "exposure",
      mandatory := true, optional := false, safety_critical := true,
      actors := ["physician"],
      required_tools := ["scalpel_11_blade"],
      preconditions := ["local_anesthesia"] },
    { id := "drainage_expression", procedure_id := "incision_drainage_abscess",
      name := "Drainage and Expression of Purulent Material", phase := "exposure",
      mandatory := true, optional := false, safety_critical := false,
      actors := ["physician"],
      required_tools := ["hemostats", "gauze"],
      preconditions := ["incision"] },
    { id := "loculation_breakdown", procedure_id := "incision_drainage_abscess",
      name := "Loculation Breakdown with Hemostat", phase := "exposure",
      mandatory := true, optional := false, safety_critical := false,
      actors := ["physician"],
      required_tools := ["hemostats"],
      preconditions := ["drainage_expression"] },
    { id := "wound_irrigation", procedure_id := "incision_drainage_abscess",
      name := "Wound Irrigation with Saline", phase := "safety",
      mandatory := true, optional := false, safety_critical := false,
      actors := ["physician"],
      required_tools := ["irrigation_syringe", "normal_saline"],
      preconditions := ["loculation_breakdown"] },
    { id := "wound_culture", procedure_id := "incision_drainage_abscess",
      name := "Wound Culture Collection", phase := "safety",
      mandatory := false, optional := true, safety_critical := false,
      actors := ["physician"],
      required_tools := ["culture_swab"],
      preconditions := ["drainage_expression"] },
    { id := "wound_packing", procedure_id := "incision_drainage_abscess",
      name := "Wound Packing with Gauze Strip", phase := "closure",
      mandatory := true, optional := false, safety_critical := true,
      actors := ["physician"],
      required_tools := ["packing_gauze_strip", "hemostats"],
      preconditions := ["wound_irrigation"] },
    { id := "external_dressing", procedure_id := "incision_drainage_abscess",
      name := "External Dressing Application", phase := "closure",
      mandatory := true, optional := false, safety_critical := false,
      actors := ["physician", "nurse"],
      required_tools := ["gauze_pad", "adhesive_tape"],
      preconditions := ["wound_packing"] },
    { id := "discharge_instructions", procedure_id := "incision_drainage_abscess",
      name := "Discharge Instructions and Follow-Up", phase := "checklist",
      mandatory := true, optional := false, safety_critical := true,
      actors := ["physician", "nurse"],
      required_tools := ["discharge_paperwork"],
      preconditions := ["external_dressing"] },
    { id := "uncontrolled_bleeding", procedure_id := "incision_drainage_abscess",
      name := "Uncontrolled Bleeding Management", phase := "complication",
      mandatory := false, optional := true, safety_critical := true,
      actors := ["physician"],
      required_tools := ["pressure_dressing", "cautery", "sutures"],
      preconditions := ["incision"] },
    { id := "deep_tissue_extension", procedure_id := "incision_drainage_abscess",
      name := "Referral for Deep Tissue Extension", phase := "complication",
      mandatory := false, optional := true, safety_critical := true,
      actors := ["physician"],
      required_tools := ["referral_form"],
      preconditions := ["loculation_breakdown"] } ]

/-- Edge rows of the `incision_drainage_abscess` seed
(`supabase_seed_appendectomy.sql` lines 435–454), in file order. -/
def abscessEdges : List ProcedureEdge :=
  [ { procedure_id := "incision_drainage_abscess", from_node := "patient_identification",
      to_node := "allergy_check", type := EdgeType.sequential },
    { procedure_id := "incision_drainage_abscess", from_node := "allergy_check",
      to_node := "equipment_preparation", type := EdgeType.sequential },
    { procedure_id := "incision_drainage_abscess", from_node := "equipment_preparation",
      to_node := "site_marking", type := EdgeType.sequential },
    { procedure_id := "incision_drainage_abscess", from_node := "site_marking",
      to_node := "sterile_preparation", type := EdgeType.sequential },
    { procedure_id := "incision_drainage_abscess", from_node := "sterile_preparation",
      to_node := "local_anesthesia", type := EdgeType.sequential },
    { procedure_id := "incision_drainage_abscess", from_node := "local_anesthesia",
      to_node := "incision", type := EdgeType.sequential },
    { procedure_id := "incision_drainage_abscess", from_node := "incision",
      to_node := "drainage_expression", type := EdgeType.sequential },
    { procedure_id := "incision_drainage_abscess", from_node := "drainage_expression",
      to_node := "loculation_breakdown", type := EdgeType.sequential },
    { procedure_id := "incision_drainage_abscess", from_node := "loculation_breakdown",
      to_node := "wound_irrigation", type := EdgeType.sequential },
    { procedure_id := "incision_drainage_abscess", from_node := "wound_irrigation",
      to_node := "wound_packing", type := EdgeType.sequential },
    { procedure_id := "incision_drainage_abscess", from_node := "wound_packing",
      to_node := "external_dressing", type := EdgeType.sequential },
    { procedure_id := "incision_drainage_abscess", from_node := "external_dressing",
      to_node := "discharge_instructions", type := EdgeType.sequential },
    { procedure_id := "incision_drainage_abscess", from_node := "drainage_expression",
      to_node := "wound_culture", type := EdgeType.conditional },
    { procedure_id := "incision_drainage_abscess", from_node := "incision",
      to_node := "uncontrolled_bleeding", type := EdgeType.conditional },
    { procedure_id := "incision_drainage_abscess", from_node := "uncontrolled_bleeding",
      to_node := "wound_irrigation", type := EdgeType.conditional },
    { procedure_id := "incision_drainage_abscess", from_node := "loculation_breakdown",
      to_node := "deep_tissue_extension", type := EdgeType.conditional } ]

/-! Theorems. -/

/-- C5: the seeded incision-and-drainage-of-abscess graph has exactly 16
step nodes and 16 edges, of which exactly 13 nodes are mandatory;
`wound_culture` is optional and not mandatory, and `uncontrolled_bleeding`
is a non-mandatory complication node whose only inbound edge is the
conditional edge from `incision`. -/
theorem abscess_seed_shape :
    abscessNodes.length = 16 ∧
    abscessEdges.length = 16 ∧
    (abscessNodes.filter (·.mandatory)).length = 13 ∧
    ((abscessNodes.find? (fun n => n.id == "wound_culture")).map
      (fun n => (n.mandatory, n.optional))) = some (false, true) ∧
    ((abscessNodes.find? (fun n => n.id == "uncontrolled_bleeding")).map
      (fun n => (n.mandatory, n.phase))) = some (false, "complication") ∧
    ((abscessEdges.filter (fun e => e.to_node == "uncontrolled_bleeding")).map
      (fun e => (e.from_node, e.type))) = [("incision", EdgeType.conditional)] := by
  decide

/-- C6: in both seeded graphs the sequential subgraph admits a topological
order (is acyclic), some node has no incoming sequential edge, and the
layered breadth-first traversal of `GraphTab` visits every node of the
graph, each exactly once. -/
theorem seed_graphs_sequential_dag :
    SeqAcyclic lapAppendNodes lapAppendEdges ∧
    SeqAcyclic abscessNodes abscessEdges ∧
    lapAppendNodes.any (seqEntry lapAppendEdges) = true ∧
    abscessNodes.any (seqEntry abscessEdges) = true ∧
    lapAppendNodes.all
      (fun n => (bfsVisited lapAppendNodes lapAppendEdges).contains n.id) = true ∧
    abscessNodes.all
      (fun n => (bfsVisited abscessNodes abscessEdges).contains n.id) = true ∧
    (bfsVisited lapAppendNodes lapAppendEdges).length = lapAppendNodes.length ∧
    (bfsVisited abscessNodes abscessEdges).length = abscessNodes.length :=
  ⟨⟨["who_sign_in", "general_anesthesia", "patient_positioning",
      "antibiotic_prophylaxis", "who_time_out", "establish_pneumoperitoneum",
      "trocar_placement", "diagnostic_laparoscopy", "appendix_identification",
      "mesoappendix_dissection", "mesoappendix_vessel_ligation",
      "appendix_base_ligation", "appendix_transection", "specimen_retrieval",
      "bleeding_control", "conversion_to_open", "hemostasis_and_stump_check",
      "irrigation", "desufflation", "port_site_closure", "who_sign_out"],
     by decide⟩,
   ⟨abscessNodes.map (·.id), by decide⟩,
   by decide, by decide, by decide, by decide, by decide, by decide⟩

/-- C10: in every seeded step node of both procedure graphs the
`optional` flag is the exact negation of the `mandatory` flag. -/
theorem seed_optional_negates_mandatory :
    (lapAppendNodes ++ abscessNodes).all
      (fun n => n.optional == !n.mandatory) = true := by
  decide

/-- Spec-side weight of a snippet list: the sum of its confidences
(spec §4.3, `riskWeight` / `safetyWeight`). -/
def weightSum (snips : List ParsedSnippet) : ℚ :=
  (snips.map (·.confidence)).sum

lemma confidenceSum_from (a : ℚ) (snips : List ParsedSnippet) :
    snips.foldl (fun s sn => s + sn.confidence) a = a + weightSum snips := by
  induction snips generalizing a with
  | nil => simp [weightSum]
  | cons sn t ih =>
    simp only [List.foldl_cons, weightSum, List.map_cons, List.sum_cons, ih]
    ring

lemma confidenceSum_eq_weightSum (snips : List ParsedSnippet) :
    confidenceSum snips = weightSum snips := by
  simpa using confidenceSum_from 0 snips

/-- C4: for every parsed snippet pair of lists, the displayed risk ratio
equals `riskWeight / (riskWeight + safetyWeight)` where each weight is the
sum of confidences of the corresponding polarity, and it equals `0.5`
when no snippet was parsed. -/
theorem riskRatio_weight_formula (risk safe : List ParsedSnippet) :
    (0 < risk.length + safe.length →
      riskRatio risk safe = weightSum risk / (weightSum risk + weightSum safe)) ∧
    (risk.length + safe.length = 0 → riskRatio risk safe = 1 / 2) := by
  constructor
  · intro h
    simp [riskRatio, h, confidenceSum_eq_weightSum]
  · intro h
    simp [riskRatio, h]

/-- C4 witness: the theorem evaluated at a one-snippet input and at the
empty input. -/
theorem riskRatio_weight_formula_witness :
    riskRatio [mkParsedSnippet 90 "t" "s" "d"] [] =
      weightSum [mkParsedSnippet 90 "t" "s" "d"] /
        (weightSum [mkParsedSnippet 90 "t" "s" "d"] + weightSum []) ∧
    riskRatio [] [] = 1 / 2 :=
  ⟨(riskRatio_weight_formula [mkParsedSnippet 90 "t" "s" "d"] []).1 (by decide),
   (riskRatio_weight_formula [] []).2 rfl⟩

/-- C9: the guard in `DeviationCard` tests only that some snippet was
parsed, not that the confidence sums are positive.  When every parsed
confidence has the shape `p / 100` produced by `parseEvidenceSummary` and
at least one is positive, the denominator is positive and the ratio lies
in `[0,1]`; but a nonempty input whose confidences are all `0` passes the
guard with a zero denominator, i.e. reaches the division-by-zero branch
(a JS `0/0`, `NaN`). -/
theorem riskRatio_guard_positivity (risk safe : List ParsedSnippet)
    (hform : ∀ sn ∈ risk ++ safe, ∃ p : ℕ, sn.confidence = (p : ℚ) / 100)
    (hpos : ∃ sn ∈ risk ++ safe, 0 < sn.confidence) :
    (0 < confidenceSum risk + confidenceSum safe ∧
      0 ≤ riskRatio risk safe ∧ riskRatio risk safe ≤ 1) ∧
    (0 < ([mkParsedSnippet 0 "t" "s" "d"].length + ([] : List ParsedSnippet).length) ∧
      confidenceSum [mkParsedSnippet 0 "t" "s" "d"] + confidenceSum [] = 0) := by
  have hnn : ∀ sn ∈ risk ++ safe, (0 : ℚ) ≤ sn.confidence := by
    intro sn hs
    obtain ⟨p, hp⟩ := hform sn hs
    rw [hp]
    positivity
  have hsum : confidenceSum risk + confidenceSum safe =
      weightSum (risk ++ safe) := by
    simp [confidenceSum_eq_weightSum, weightSum]
  have hden : 0 < confidenceSum risk + confidenceSum safe := by
    rw [hsum]
    obtain ⟨sn, hmem, hgt⟩ := hpos
    have hx : sn.confidence ≤ weightSum (risk ++ safe) := by
      refine List.single_le_sum ?_ _ (List.mem_map_of_mem (·.confidence) hmem)
      intro x hx
      obtain ⟨y, hy, rfl⟩ := List.mem_map.1 hx
      exact hnn y hy
    exact lt_of_lt_of_le hgt hx
  have hrnn : 0 ≤ confidenceSum risk := by
    rw [confidenceSum_eq_weightSum, weightSum]
    refine List.sum_nonneg ?_
    intro x hx
    obtain ⟨y, hy, rfl⟩ := List.mem_map.1 hx
    exact hnn y (List.mem_append_left _ hy)
  have hsnn : 0 ≤ confidenceSum safe := by
    rw [confidenceSum_eq_weightSum, weightSum]
    refine List.sum_nonneg ?_
    intro x hx
    obtain ⟨y, hy, rfl⟩ := List.mem_map.1 hx
    exact hnn y (List.mem_append_right _ hy)
  have hne : 0 < risk.length + safe.length := by
    obtain ⟨sn, hmem, _⟩ := hpos
    have := List.length_pos.2 (List.ne_nil_of_mem hmem)
    simpa [List.length_append] using this
  refine ⟨⟨hden, ?_, ?_⟩, by decide, by norm_num [confidenceSum, mkParsedSnippet]⟩
  · rw [riskRatio]
    simp only [hne, if_pos]
    exact div_nonneg hrnn hden.le
  · rw [riskRatio]
    simp only [hne, if_pos]
    rw [div_le_one hden]
    linarith

/-- C9 witness: the theorem evaluated at one risk snippet of confidence
0.9 and one safety snippet of confidence 0. -/
theorem riskRatio_guard_positivity_witness :
    0 < confidenceSum [mkParsedSnippet 90 "t" "s" "d"] +
        confidenceSum [mkParsedSnippet 0 "u" "v" "w"] ∧
    0 ≤ riskRatio [mkParsedSnippet 90 "t" "s" "d"] [mkParsedSnippet 0 "u" "v" "w"] ∧
    riskRatio [mkParsedSnippet 90 "t" "s" "d"] [mkParsedSnippet 0 "u" "v" "w"] ≤ 1 :=
  (riskRatio_guard_positivity [mkParsedSnippet 90 "t" "s" "d"]
    [mkParsedSnippet 0 "u" "v" "w"]
    (by
      intro sn hs
      simp only [List.cons_append, List.nil_append, List.mem_cons,
        List.not_mem_nil, or_false] at hs
      rcases hs with rfl | rfl
      · exact ⟨90, rfl⟩
      · exact ⟨0, rfl⟩)
    ⟨mkParsedSnippet 90 "t" "s" "d", by simp, by norm_num [mkParsedSnippet]⟩).1

/-- A two-node graph exercising the conditional-branch exception: a
non-mandatory complication node gating, via its only (conditional) edge, a
mandatory follow-up step. -/
def exGateNode : ProcedureNode :=
  { id := "bleeding_control", procedure_id := "p1", name := "Bleeding Control",
    phase := "complication", mandatory := false, optional := true,
    safety_critical := true, actors := [], required_tools := [],
    preconditions := [] }

/-- The gated mandatory step of the two-node example graph. -/
def exGatedNode : ProcedureNode :=
  { id := "conversion_to_open", procedure_id := "p1",
    name := "Conversion to Open", phase := "complication", mandatory := true,
    optional := false, safety_critical := true, actors := [],
    required_tools := [], preconditions := ["bleeding_control"] }

/-- The single conditional edge of the two-node example graph. -/
def exGatedEdges : List ProcedureEdge :=
  [ { procedure_id := "p1", from_node := "bleeding_control",
      to_node := "conversion_to_open", type := EdgeType.conditional } ]

/-- C1 counterexample: in the two-node graph, with no events, the gated
step is mandatory and reachable only via the conditional edge from the
unobserved gating node, yet `missingNodes` still reports it missing — the
conditional-branch exception claimed by the spec is not implemented. -/
theorem missingNodes_conditional_gate_counterexample :
    missingNodes [] [exGateNode, exGatedNode] = [exGatedNode] ∧
    exGatedNode.mandatory = true ∧
    exGateNode.mandatory = false ∧
    ((exGatedEdges.filter (fun e => e.to_node == exGatedNode.id)).map
      (fun e => (e.from_node, e.type))) = [(exGateNode.id, EdgeType.conditional)] ∧
    (([] : List ObservedEvent).map (·.node_id)).contains exGateNode.id = false := by
  decide

/-- C1 as amended: over a graph with pairwise-distinct node ids, the
missing list contains exactly the mandatory steps with no observed event,
each exactly once, and a step not marked mandatory never appears — with
no conditional-branch exception. -/
theorem missingNodes_mandatory_unobserved (nodes : List ProcedureNode)
    (events : List ObservedEvent) (hids : (nodes.map (·.id)).Nodup) :
    (∀ n : ProcedureNode, n ∈ missingNodes events nodes ↔
      n ∈ nodes ∧ n.mandatory = true ∧ n.id ∉ events.map (·.node_id)) ∧
    (∀ n ∈ nodes, n.mandatory = true → n.id ∉ events.map (·.node_id) →
      (missingNodes events nodes).count n = 1) ∧
    (∀ n : ProcedureNode, n.mandatory = false →
      n ∉ missingNodes events nodes) := by
  have hchar : ∀ n : ProcedureNode, n ∈ missingNodes events nodes ↔
      n ∈ nodes ∧ n.mandatory = true ∧ n.id ∉ events.map (·.node_id) := by
    intro n
    simp [missingNodes, List.mem_filter, and_assoc]
  refine ⟨hchar, ?_, ?_⟩
  · intro n hmem hmand hobs
    have hnodup : (missingNodes events nodes).Nodup :=
      (hids.of_map (·.id)).filter _
    exact List.count_eq_one_of_mem hnodup ((hchar n).2 ⟨hmem, hmand, hobs⟩)
  · intro n hnot hmem
    have := ((hchar n).1 hmem).2.1
    rw [hnot] at this
    exact Bool.false_ne_true this

/-- C1 witness: the amended theorem evaluated at the two-node example
graph with no events: the gated mandatory step is listed exactly once. -/
theorem missingNodes_mandatory_unobserved_witness :
    (([exGateNode, exGatedNode].map (·.id)).Nodup) ∧
    (missingNodes [] [exGateNode, exGatedNode]).count exGatedNode = 1 :=
  ⟨by decide,
   (missingNodes_mandatory_unobserved [exGateNode, exGatedNode] []
      (by decide)).2.1 exGatedNode (by decide) (by decide) (by simp)⟩

/-- C7: the missing-step computation depends only on which step ids were
observed: appending events whose step id was already observed leaves it
unchanged, and any two event lists observing the same id set produce the
same missing list. -/
theorem missingNodes_repeat_observations (nodes : List ProcedureNode)
    (es es2 es' : List ObservedEvent) :
    ((∀ e ∈ es2, e.node_id ∈ es.map (·.node_id)) →
      missingNodes (es ++ es2) nodes = missingNodes es nodes) ∧
    ((∀ i : String, i ∈ es.map (·.node_id) ↔ i ∈ es'.map (·.node_id)) →
      missingNodes es nodes = missingNodes es' nodes) := by
  constructor
  · intro h
    apply List.filter_congr
    intro n _
    have hcont : (((es ++ es2).map (·.node_id)).contains n.id) =
        ((es.map (·.node_id)).contains n.id) := by
      by_cases hm : n.id ∈ es.map (·.node_id)
      · have h2 : n.id ∈ (es ++ es2).map (·.node_id) := by
          rw [List.map_append]
          exact List.mem_append_left _ hm
        simp [hm, h2]
      · simp only [List.map_append]
        simp [hm]
        exact fun x hx heq => hm (heq ▸ h x hx)
    rw [hcont]
  · intro h
    apply List.filter_congr
    intro n _
    have hcont : ((es.map (·.node_id)).contains n.id) =
        ((es'.map (·.node_id)).contains n.id) := by
      by_cases hm : n.id ∈ es.map (·.node_id)
      · simp [hm, (h n.id).1 hm]
      · simp [hm]
        exact fun x hx heq =>
          hm ((h n.id).2 (List.mem_map.2 ⟨x, hx, heq⟩))
    rw [hcont]

/-- C7 witness: a repeat observation of the gated step appended to an
event list does not change the missing list. -/
theorem missingNodes_repeat_observations_witness :
    missingNodes
      ([⟨1, "r1", "conversion_to_open", 0, 1⟩] ++
        [⟨2, "r1", "conversion_to_open", 5, 1⟩])
      [exGateNode, exGatedNode] =
    missingNodes [⟨1, "r1", "conversion_to_open", 0, 1⟩]
      [exGateNode, exGatedNode] :=
  (missingNodes_repeat_observations [exGateNode, exGatedNode]
    [⟨1, "r1", "conversion_to_open", 0, 1⟩]
    [⟨2, "r1", "conversion_to_open", 5, 1⟩] []).1 (by decide)

lemma eventRowValid_iff (e : ObservedEvent) :
    eventRowValid e = true ↔ 0 ≤ e.confidence ∧ e.confidence ≤ 1 := by
  simp [eventRowValid]

/-- An event whose step id is the empty string but whose confidence is in
range: the schema's `NOT NULL` does not exclude it. -/
def emptyIdEvent : ObservedEvent :=
  { id := 1, procedure_run_id := "r1", node_id := "", timestamp := 0,
    confidence := 1 / 2 }

/-- C8 counterexample: an event with an empty step id passes the schema
constraints and is stored in the event log, so acceptance does not imply a
non-empty step id. -/
theorem insertEvents_empty_id_counterexample :
    emptyIdEvent.node_id = "" ∧
    eventRowValid emptyIdEvent = true ∧
    insertEvents [] [emptyIdEvent] = [emptyIdEvent] := by
  have hv : eventRowValid emptyIdEvent = true := by
    rw [eventRowValid_iff]
    norm_num [emptyIdEvent]
  exact ⟨rfl, hv, by simp [insertEvents, hv]⟩

/-- C8 as amended: every event stored in a run's event log has a
confidence within `[0,1]`; an event whose confidence lies outside `[0,1]`
is never stored; every in-range incoming event is stored, so analysis
proceeds with the well-formed remainder.  (The step id is `NOT NULL` but
not required to be non-empty.) -/
theorem insertEvents_confidence_range (log incoming : List ObservedEvent)
    (hlog : ∀ e ∈ log, 0 ≤ e.confidence ∧ e.confidence ≤ 1) :
    (∀ e ∈ insertEvents log incoming, 0 ≤ e.confidence ∧ e.confidence ≤ 1) ∧
    (∀ e ∈ incoming, ¬(0 ≤ e.confidence ∧ e.confidence ≤ 1) →
      e ∉ insertEvents log incoming) ∧
    (∀ e ∈ incoming, (0 ≤ e.confidence ∧ e.confidence ≤ 1) →
      e ∈ insertEvents log incoming) := by
  refine ⟨?_, ?_, ?_⟩
  · intro e he
    rcases List.mem_append.1 he with he | he
    · exact hlog e he
    · exact (eventRowValid_iff e).1 (List.of_mem_filter he)
  · intro e _ hbad hmem
    rcases List.mem_append.1 hmem with hm | hm
    · exact hbad (hlog e hm)
    · exact hbad ((eventRowValid_iff e).1 (List.of_mem_filter hm))
  · intro e he hok
    exact List.mem_append_right _
      (List.mem_filter.2 ⟨he, (eventRowValid_iff e).2 hok⟩)

/-- C8 witness: the amended theorem evaluated on one in-range event
entering an empty log. -/
theorem insertEvents_confidence_range_witness :
    (⟨3, "r1", "incision", 2, 1⟩ : ObservedEvent) ∈
      insertEvents [] [⟨3, "r1", "incision", 2, 1⟩] :=
  (insertEvents_confidence_range [] [⟨3, "r1", "incision", 2, 1⟩]
    (by simp)).2.2 ⟨3, "r1", "incision", 2, 1⟩ (by simp) (by norm_num)

lemma replace_key (r row : ReportRow) :
    ((if row.procedure_run_id == r.procedure_run_id then r
      else row) : ReportRow).procedure_run_id = row.procedure_run_id := by
  by_cases h : row.procedure_run_id = r.procedure_run_id <;> simp [h]

lemma reportCount_map_replace (table : List ReportRow) (r : ReportRow)
    (rid : String) :
    reportCount (table.map (fun row =>
      if row.procedure_run_id == r.procedure_run_id then r else row)) rid =
    reportCount table rid := by
  induction table with
  | nil => rfl
  | cons row t ih =>
    simp only [List.map_cons, reportCount, List.filter_cons, replace_key r row]
    simp only [reportCount] at ih
    by_cases hr : row.procedure_run_id = rid
    · simp [hr]
      simpa using ih
    · simp [hr]
      simpa using ih

lemma reportCount_zero_of_not_any (table : List ReportRow) (rid : String)
    (h : table.any (fun row => row.procedure_run_id == rid) = false) :
    reportCount table rid = 0 := by
  induction table with
  | nil => rfl
  | cons row t ih =>
    simp only [List.any_cons, Bool.or_eq_false_iff] at h
    have ih2 := ih h.2
    simp only [reportCount, List.filter_cons] at ih2 ⊢
    simp [h.1, ih2]

lemma one_le_reportCount_of_any (table : List ReportRow) (rid : String)
    (h : table.any (fun row => row.procedure_run_id == rid) = true) :
    1 ≤ reportCount table rid := by
  induction table with
  | nil => cases h
  | cons row t ih =>
    simp only [List.any_cons, Bool.or_eq_true] at h
    rcases h with hh | hh
    · simp [reportCount, List.filter_cons, hh]
    · have ih2 := ih hh
      by_cases hr : row.procedure_run_id = rid
      · simp [reportCount, List.filter_cons, hr]
      · simp only [reportCount, List.filter_cons] at ih2 ⊢
        simpa [hr] using ih2

/-- C3: storing a report keeps at most one report per run id, leaves
exactly one report for the stored run id, and if the run already had a
report the table size is unchanged — the write replaces, never appends. -/
theorem saveReport_at_most_one (table : List ReportRow) (r : ReportRow)
    (h : ∀ rid, reportCount table rid ≤ 1) :
    (∀ rid, reportCount (saveReport table r) rid ≤ 1) ∧
    reportCount (saveReport table r) r.procedure_run_id = 1 ∧
    (1 ≤ reportCount table r.procedure_run_id →
      (saveReport table r).length = table.length) := by
  by_cases hany :
      table.any (fun row => row.procedure_run_id == r.procedure_run_id) = true
  · have hsave : saveReport table r = table.map (fun row =>
        if row.procedure_run_id == r.procedure_run_id then r else row) := by
      simp [saveReport, hany]
    refine ⟨?_, ?_, ?_⟩
    · intro rid
      rw [hsave, reportCount_map_replace]
      exact h rid
    · rw [hsave, reportCount_map_replace]
      exact le_antisymm (h _) (one_le_reportCount_of_any _ _ hany)
    · intro _
      rw [hsave, List.length_map]
  · have hfalse :
        table.any (fun row => row.procedure_run_id == r.procedure_run_id) =
          false := by
      simpa using hany
    have hzero := reportCount_zero_of_not_any table r.procedure_run_id hfalse
    have hsave : saveReport table r = table ++ [r] := by
      simp [saveReport, hfalse]
    refine ⟨?_, ?_, ?_⟩
    · intro rid
      rw [hsave]
      have hsplit : reportCount (table ++ [r]) rid =
          reportCount table rid + reportCount [r] rid := by
        simp [reportCount, List.filter_append]
      by_cases hk : r.procedure_run_id = rid
      · have h0 : reportCount table rid = 0 := by
          rw [← hk]
          exact hzero
        have h1 : reportCount [r] rid = 1 := by
          simp [reportCount, List.filter_cons, hk]
        omega
      · have h1 : reportCount [r] rid = 0 := by
          simp [reportCount, List.filter_cons, hk]
        have := h rid
        omega
    · rw [hsave]
      have hsplit : reportCount (table ++ [r]) r.procedure_run_id =
          reportCount table r.procedure_run_id +
            reportCount [r] r.procedure_run_id := by
        simp [reportCount, List.filter_append]
      have h1 : reportCount [r] r.procedure_run_id = 1 := by
        simp [reportCount, List.filter_cons]
      omega
    · intro h1
      exact absurd h1 (by omega)

/-- C3 witness: the theorem evaluated on a one-row table re-analysed with
a fresh report for the same run id: one report remains, no row added. -/
theorem saveReport_at_most_one_witness :
    reportCount
      (saveReport [⟨"r1", 1⟩] (⟨"r1", 1 / 2⟩ : ReportRow))
      (⟨"r1", 1 / 2⟩ : ReportRow).procedure_run_id = 1 ∧
    (saveReport [⟨"r1", 1⟩] (⟨"r1", 1 / 2⟩ : ReportRow)).length =
      ([⟨"r1", 1⟩] : List ReportRow).length :=
  ⟨(saveReport_at_most_one [⟨"r1", 1⟩] ⟨"r1", 1 / 2⟩
      (fun rid => le_trans (List.length_filter_le _ _) (by simp))).2.1,
   (saveReport_at_most_one [⟨"r1", 1⟩] ⟨"r1", 1 / 2⟩
      (fun rid => le_trans (List.length_filter_le _ _) (by simp))).2.2
      (by simp [reportCount, List.filter_cons])⟩

lemma filter_and_length_le {α : Type} (l : List α) (p q : α → Bool) :
    (l.filter (fun a => p a && q a)).length ≤ (l.filter p).length := by
  induction l with
  | nil => simp
  | cons a t ih =>
    by_cases hp : p a = true
    · by_cases hq : q a = true
      · simpa [List.filter_cons, hp, hq] using ih
      · simp only [List.filter_cons, hp, hq]
        simp only [Bool.and_false, Bool.and_true, if_false, if_true]
        exact le_trans ih (by simp [Nat.le_succ])
    · simp only [List.filter_cons, Bool.eq_false_iff] at *
      simp [hp]
      exact ih

lemma filter_and_eq_of_all {α : Type} (l : List α) (p q : α → Bool)
    (h : ∀ a ∈ l, p a = true → q a = true) :
    l.filter (fun a => p a && q a) = l.filter p := by
  apply List.filter_congr
  intro a ha
  by_cases hp : p a = true
  · simp [hp, h a ha hp]
  · simp only [Bool.eq_false_iff] at hp
    simp [Bool.eq_false_iff.2 hp]

lemma all_of_filter_and_length {α : Type} (l : List α) (p q : α → Bool)
    (h : (l.filter (fun a => p a && q a)).length = (l.filter p).length) :
    ∀ a ∈ l, p a = true → q a = true := by
  induction l with
  | nil => intro a ha; cases ha
  | cons a t ih =>
    intro b hb hpb
    by_cases hp : p a = true
    · by_cases hq : q a = true
      · have h2 : (t.filter (fun x => p x && q x)).length =
            (t.filter p).length := by
          simpa [List.filter_cons, hp, hq] using h
        rcases List.mem_cons.1 hb with rfl | hb2
        · exact hq
        · exact ih h2 b hb2 hpb
      · exfalso
        have hle := filter_and_length_le t p q
        have hq2 : q a = false := Bool.eq_false_iff.2 hq
        simp [List.filter_cons, hp, hq2] at h
        omega
    · have hp2 : p a = false := Bool.eq_false_iff.2 hp
      have h2 : (t.filter (fun x => p x && q x)).length =
          (t.filter p).length := by
        simpa [List.filter_cons, hp2] using h
      rcases List.mem_cons.1 hb with rfl | hb2
      · exact absurd hpb hp
      · exact ih h2 b hb2 hpb

/-- C2 as amended: with nonnegative penalty weights and a graph holding
at least one mandatory step, the compliance score lies in `[0,1]`; it
equals `1` whenever every mandatory step was observed and no deviation was
raised; and a score of `1` forces every mandatory step to have been
observed — but not the absence of raised deviations, since only
`confirmed` and `skipped_safety` deviations are penalized. -/
theorem complianceScore_bounds (cw sw : ℚ) (nodes : List ProcedureNode)
    (events : List ObservedEvent) (devs : List AdjudicatedDeviation)
    (hcw : 0 ≤ cw) (hsw : 0 ≤ sw) (hexp : 0 < totalExpected nodes) :
    (0 ≤ complianceScore cw sw nodes events devs ∧
      complianceScore cw sw nodes events devs ≤ 1) ∧
    (((∀ n ∈ nodes, n.mandatory = true → n.id ∈ events.map (·.node_id)) ∧
        devs = []) → complianceScore cw sw nodes events devs = 1) ∧
    (complianceScore cw sw nodes events devs = 1 →
      ∀ n ∈ nodes, n.mandatory = true → n.id ∈ events.map (·.node_id)) := by
  have hE : (0 : ℚ) < (totalExpected nodes : ℚ) := by exact_mod_cast hexp
  refine ⟨⟨le_max_left _ _, max_le (by norm_num) (min_le_left _ _)⟩, ?_, ?_⟩
  · rintro ⟨hall, rfl⟩
    have hOE : totalObserved nodes events = totalExpected nodes := by
      unfold totalObserved totalExpected
      rw [filter_and_eq_of_all]
      intro n hn hm
      exact List.elem_iff.2 (hall n hn hm)
    have hpen : confirmedCount [] = 0 ∧ skippedSafetyCount [] = 0 := ⟨rfl, rfl⟩
    rw [complianceScore, hOE, hpen.1, hpen.2]
    rw [div_self hE.ne']
    simp [clamp01]
  · intro hs n hn hm
    have hx : (1 : ℚ) ≤ (totalObserved nodes events : ℚ) /
        (totalExpected nodes : ℚ) - cw * (confirmedCount devs : ℚ) -
        sw * (skippedSafetyCount devs : ℚ) := by
      rcases max_cases 0 (min 1 ((totalObserved nodes events : ℚ) /
          (totalExpected nodes : ℚ) - cw * (confirmedCount devs : ℚ) -
          sw * (skippedSafetyCount devs : ℚ))) with ⟨he, _⟩ | ⟨he, _⟩
      · rw [complianceScore, clamp01, he] at hs
        norm_num at hs
      · rw [complianceScore, clamp01, he] at hs
        have := min_le_right 1 ((totalObserved nodes events : ℚ) /
          (totalExpected nodes : ℚ) - cw * (confirmedCount devs : ℚ) -
          sw * (skippedSafetyCount devs : ℚ))
        rw [hs] at this
        exact this
    have hpen1 : (0 : ℚ) ≤ cw * (confirmedCount devs : ℚ) :=
      mul_nonneg hcw (by positivity)
    have hpen2 : (0 : ℚ) ≤ sw * (skippedSafetyCount devs : ℚ) :=
      mul_nonneg hsw (by positivity)
    have hdiv : (1 : ℚ) ≤ (totalObserved nodes events : ℚ) /
        (totalExpected nodes : ℚ) := by linarith
    have hge : (totalExpected nodes : ℚ) ≤ (totalObserved nodes events : ℚ) :=
      (one_le_div hE).1 hdiv
    have hle : totalObserved nodes events ≤ totalExpected nodes :=
      filter_and_length_le nodes _ _
    have hOE : totalObserved nodes events = totalExpected nodes := by
      have := (Nat.cast_le (α := ℚ)).1 hge
      omega
    have hb := all_of_filter_and_length nodes (·.mandatory)
      (fun n => (events.map (·.node_id)).contains n.id)
      (by simpa [totalObserved, totalExpected] using hOE)
    exact List.elem_iff.1 (hb n hn hm)

/-- One mandatory step, used to exercise the compliance score. -/
def exStepNode : ProcedureNode :=
  { id := "incision", procedure_id := "p2", name := "Incision",
    phase := "exposure", mandatory := true, optional := false,
    safety_critical := true, actors := [], required_tools := [],
    preconditions := [] }

/-- One observation of the mandatory step. -/
def exStepEvent : ObservedEvent :=
  { id := 7, procedure_run_id := "r2", node_id := "incision", timestamp := 1,
    confidence := 1 }

/-- A raised deviation adjudicated `mitigated`: unpenalized. -/
def exMitigatedDev : AdjudicatedDeviation :=
  { node_id := "incision", deviation_type := DevKind.out_of_order,
    verdict := Verdict.mitigated }

/-- C2 counterexample: with a raised `out_of_order` deviation adjudicated
`mitigated`, full coverage still yields a compliance score of exactly `1`,
so a score of `1.0` does not imply that no deviation was raised. -/
theorem complianceScore_one_with_deviation :
    complianceScore (1 / 10) (1 / 10) [exStepNode] [exStepEvent]
      [exMitigatedDev] = 1 ∧
    ([exMitigatedDev] : List AdjudicatedDeviation) ≠ [] ∧
    (∀ n ∈ [exStepNode], n.mandatory = true →
      n.id ∈ [exStepEvent].map (·.node_id)) := by
  refine ⟨?_, by simp, by decide⟩
  have h1 : confirmedCount [exMitigatedDev] = 0 := rfl
  have h2 : skippedSafetyCount [exMitigatedDev] = 0 := rfl
  have h3 : totalObserved [exStepNode] [exStepEvent] = 1 := rfl
  have h4 : totalExpected [exStepNode] = 1 := rfl
  rw [complianceScore, h1, h2, h3, h4]
  norm_num [clamp01]

/-- C2 witness: the amended theorem evaluated at the one-step graph with
its step observed and no deviations: the score is exactly `1`. -/
theorem complianceScore_bounds_witness :
    complianceScore (1 / 10) (1 / 10) [exStepNode] [exStepEvent] [] = 1 :=
  (complianceScore_bounds (1 / 10) (1 / 10) [exStepNode] [exStepEvent] []
    (by norm_num) (by norm_num) (by decide)).2.1 ⟨by decide, rfl⟩
